import Mathlib

/-!
Verification of the time-series analysis utility
(`load_data`, `TimeSeriesAnalysis.calculate_moving_average`,
`TimeSeriesAnalysis.detect_seasonality`).

The embedding models the pandas-backed Python code: nullable numeric cells
are `Option ℚ` (`none` plays the role of `NaN`), tables are association
lists from column names to aligned value sequences, and the exceptions the
code can raise are an explicit error type threaded through `Except`.
Pandas library calls reached by the code (`rolling(...).mean()`,
`Series.autocorr`, `DataFrame.__getitem__`, `set_index`, `to_datetime`)
are embedded with their library semantics: rolling mean uses the default
`min_periods = window` and counts non-null observations; `autocorr lag` is
the Pearson correlation of the series with itself shifted by `lag` over
pairwise-complete positions, undefined (`NaN`) when an overlap variance is
zero; a missing key raises `KeyError`; a negative rolling window raises
`ValueError` while a zero window yields an all-`NaN` series.
-/

namespace TSUtil

/-- Python exception kinds raised along the modelled code paths:
`valueError` models an explicit `raise ValueError(...)` and the parameter
validation inside `rolling`, `keyError` models the lookup failure of
`df[col]` on a missing column (the kind the spec calls `SchemaError` at
load time and the missing-column failure of `detect_seasonality`). -/
inductive PyError where
  | valueError (msg : String)
  | keyError (key : String)
deriving DecidableEq, Repr

instance {ε α : Type _} [DecidableEq ε] [DecidableEq α] :
    DecidableEq (Except ε α) := fun x y =>
  match x, y with
  | .error e, .error f =>
    if h : e = f then .isTrue (by rw [h])
    else .isFalse (fun hc => h (Except.error.inj hc))
  | .error _, .ok _ => .isFalse (fun hc => Except.noConfusion hc)
  | .ok _, .error _ => .isFalse (fun hc => Except.noConfusion hc)
  | .ok a, .ok b =>
    if h : a = b then .isTrue (by rw [h])
    else .isFalse (fun hc => h (Except.ok.inj hc))

/-! ## Loading (`load_data`, lines 16-29) -/

/-- Output of the external tabular reader (`pd.read_csv`): a header of
field names and rows of string cells addressed by position. -/
structure RawTable where
  fields : List String
  rows : List (List String)
deriving Repr

/-- `df[name]`: extract one column; raises `KeyError` when the field is
absent from the header. -/
def RawTable.getColumn (t : RawTable) (name : String) :
    Except PyError (List String) :=
  match t.fields.findIdx? (· == name) with
  | none => .error (.keyError name)
  | some i => .ok (t.rows.map (fun r => r.getD i ""))

/-- `pd.to_datetime` applied elementwise: parse every date cell with the
external datetime parser `parse` (timestamps are modelled as integers),
propagating the first parse failure without recovery. -/
def to_datetime (parse : String → Option Int) :
    List String → Except PyError (List Int)
  | [] => .ok []
  | s :: rest =>
    match parse s with
    | none => .error (.valueError ("could not parse " ++ s))
    | some d =>
      match to_datetime parse rest with
      | .error e => .error e
      | .ok ds => .ok (d :: ds)

/-- Result of `load_data`: the parsed date index plus the remaining
columns, in original order. -/
structure LoadedFrame where
  index : List Int
  fields : List String
  rows : List (List String)
deriving Repr, DecidableEq

/-- `load_data` (lines 16-29): read the date column, parse it, and set it
as the index; `df.set_index(date_column)` keeps every other field and the
original row order. -/
def load_data (parse : String → Option Int) (t : RawTable)
    (date_column : String) : Except PyError LoadedFrame :=
  match t.getColumn date_column with
  | .error e => .error e
  | .ok dates =>
    match to_datetime parse dates with
    | .error e => .error e
    | .ok index =>
      match t.fields.findIdx? (· == date_column) with
      | none => .error (.keyError date_column)
      | some i =>
        .ok { index := index
              fields := t.fields.eraseIdx i
              rows := t.rows.map (fun r => r.eraseIdx i) }

/-! ## The analysis object (`TimeSeriesAnalysis`, lines 31-43) -/

/-- A date-indexed numeric table: column names mapped to aligned sequences
of nullable values (`none` models `NaN`). -/
structure DataFrame where
  cols : List (String × List (Option ℚ))
deriving Repr

/-- `data.columns.tolist()` -/
def DataFrame.columns (df : DataFrame) : List String := df.cols.map Prod.fst

/-- `self.data[column_name]`: pandas raises `KeyError` when the column is
absent. -/
def DataFrame.getSeries (df : DataFrame) (c : String) :
    Except PyError (List (Option ℚ)) :=
  match df.cols.find? (fun p => p.1 == c) with
  | some p => .ok p.2
  | none => .error (.keyError c)

/-- The state held by a `TimeSeriesAnalysis` object: the bound data and
the column list captured at construction. -/
structure TimeSeriesAnalysis where
  data : DataFrame
  column_list : List String
deriving Repr

/-- `__init__` (lines 33-41): store the frame and precompute
`self.column_list = data.columns.tolist()`. -/
def TimeSeriesAnalysis.make (data : DataFrame) : TimeSeriesAnalysis :=
  { data := data, column_list := data.columns }

/-! ## Rolling mean (`calculate_moving_average`, lines 44-58) -/

/-- The source entries feeding output position `i` of a width-`w` rolling
window: positions `max 0 (i+1-w)` through `i`. -/
def windowSlice (xs : List (Option ℚ)) (i w : Nat) : List (Option ℚ) :=
  (xs.take (i + 1)).drop (i + 1 - w)

/-- The non-null observations in a window (pandas skips `NaN` when
counting observations). -/
def windowObs (xs : List (Option ℚ)) (i w : Nat) : List ℚ :=
  (windowSlice xs i w).filterMap id

/-- `Series.rolling(window=w).mean()` with the default
`min_periods = w`: pandas rejects a negative window with `ValueError`;
otherwise position `i` holds the mean of the non-null observations in its
window when there are at least `w` of them (and at least one), else `NaN`. -/
def rolling_mean (xs : List (Option ℚ)) (w : Int) :
    Except PyError (List (Option ℚ)) :=
  if w < 0 then .error (.valueError "window must be an integer 0 or greater")
  else .ok ((List.range xs.length).map (fun i =>
    if w.toNat ≤ (windowObs xs i w.toNat).length ∧ 0 < (windowObs xs i w.toNat).length then
      some ((windowObs xs i w.toNat).sum / ((windowObs xs i w.toNat).length : ℚ))
    else none))

/-- `calculate_moving_average` (lines 44-58): raise `ValueError` when the
requested column is not in the precomputed `column_list`, else return the
rolling mean of the column. -/
def TimeSeriesAnalysis.calculate_moving_average (a : TimeSeriesAnalysis)
    (column_name : String) (window_size : Int) :
    Except PyError (List (Option ℚ)) :=
  if column_name ∈ a.column_list then
    match a.data.getSeries column_name with
    | .error e => .error e
    | .ok xs => rolling_mean xs window_size
  else
    .error (.valueError ("Specified column " ++ column_name ++
      " does not exist in the data"))

/-- `calculate_moving_average` called with `window_size` omitted: the
Python signature (line 44) declares the default `window_size: int = 7`. -/
def TimeSeriesAnalysis.calculate_moving_average_default
    (a : TimeSeriesAnalysis) (column_name : String) :
    Except PyError (List (Option ℚ)) :=
  a.calculate_moving_average column_name 7

/-- State-passing form of `calculate_moving_average`: the method body
(lines 55-58) contains no assignment to `self` or to the frame, so the
returned object state is the receiver unchanged. -/
def TimeSeriesAnalysis.calculate_moving_average_run (a : TimeSeriesAnalysis)
    (column_name : String) (window_size : Int) :
    Except PyError (List (Option ℚ)) × TimeSeriesAnalysis :=
  (a.calculate_moving_average column_name window_size, a)

/-! ## Seasonality (`detect_seasonality`, lines 87-107) -/

/-- `Series.dropna()`: remove every null entry, keeping order. -/
def dropna (xs : List (Option ℚ)) : List ℚ := xs.filterMap id

/-- `Series.shift(lag)`: values move down `lag` positions, `NaN` fills the
front, the length is preserved. -/
def shift (lag : Nat) (xs : List (Option ℚ)) : List (Option ℚ) :=
  (List.replicate lag none ++ xs).take xs.length

/-- Keep an aligned pair of observations only when both are non-null. -/
def pairPick : Option ℚ × Option ℚ → Option (ℚ × ℚ)
  | (some a, some b) => some (a, b)
  | _ => none

/-- The pairwise-complete observations used by `Series.corr`: the aligned
positions where both series are non-null. -/
def completePairs (xs ys : List (Option ℚ)) : List (ℚ × ℚ) :=
  (xs.zip ys).filterMap pairPick

/-- Unnormalised Pearson statistics of a list of pairs:
`cov = n·Σxy − Σx·Σy`, `varx = n·Σx² − (Σx)²`, `vary = n·Σy² − (Σy)²`.
The float the library computes is `cov / √(varx·vary)`, a `NaN` when a
variance factor is zero. -/
structure CorrStat where
  cov : ℚ
  varx : ℚ
  vary : ℚ
deriving DecidableEq, Repr

/-- The Pearson statistics of a list of pairs. -/
def corrStat (ps : List (ℚ × ℚ)) : CorrStat :=
  { cov := (ps.length : ℚ) * (ps.map (fun p => p.1 * p.2)).sum -
      (ps.map Prod.fst).sum * (ps.map Prod.snd).sum
    varx := (ps.length : ℚ) * (ps.map (fun p => p.1 * p.1)).sum -
      (ps.map Prod.fst).sum * (ps.map Prod.fst).sum
    vary := (ps.length : ℚ) * (ps.map (fun p => p.2 * p.2)).sum -
      (ps.map Prod.snd).sum * (ps.map Prod.snd).sum }

/-- The correlation is a well-defined float (not `NaN`) iff both variance
factors are nonzero. -/
def CorrStat.IsDefined (s : CorrStat) : Prop := s.varx ≠ 0 ∧ s.vary ≠ 0

instance (s : CorrStat) : Decidable s.IsDefined := by
  unfold CorrStat.IsDefined; infer_instance

/-- The real value of the correlation coefficient (meaningful when the
statistics are defined; the float computation is
`cov / (std x · std y)` which equals this exact value). -/
noncomputable def CorrStat.val (s : CorrStat) : ℝ :=
  (s.cov : ℝ) / Real.sqrt ((s.varx : ℝ) * (s.vary : ℝ))

/-- `Series.autocorr(lag)`, defined by pandas as
`self.corr(self.shift(lag))` with Pearson correlation over the
pairwise-complete positions. -/
def autocorr (data : List ℚ) (lag : Nat) : CorrStat :=
  corrStat (completePairs (data.map some) (shift lag (data.map some)))

/-- The fixed candidate (lag, label) pairs checked by
`detect_seasonality` (line 102). -/
def candidate_lags : List (Nat × String) :=
  [(1, "daily"), (7, "weekly"), (30, "monthly")]

/-- `detect_seasonality` (lines 87-107): look the column up directly in
the data (note: no `column_list` check on this path), drop nulls, then for
each candidate lag with `len(data) > lag * 2` record the autocorrelation
under the label of the lag; other lags are skipped silently. -/
def TimeSeriesAnalysis.detect_seasonality (a : TimeSeriesAnalysis)
    (column_name : String) : Except PyError (List (String × CorrStat)) :=
  match a.data.getSeries column_name with
  | .error e => .error e
  | .ok series =>
    let data := dropna series
    .ok (candidate_lags.filterMap (fun p =>
      if p.1 * 2 < data.length then some (p.2, autocorr data p.1) else none))

/-! ## Concrete frames used to instantiate the theorems -/

/-- The scenario column `[1,2,3,4,5,6,7,8]` of the spec. -/
def frameW1 : DataFrame :=
  ⟨[("col", ([1, 2, 3, 4, 5, 6, 7, 8] : List ℚ).map some)]⟩

/-- A column with a null in the middle. -/
def frameW2 : DataFrame := ⟨[("col", [some 1, none, some 3])]⟩

/-- The length-5 scenario column of the spec. -/
def frameW3 : DataFrame :=
  ⟨[("col", ([1, 2, 3, 4, 5] : List ℚ).map some)]⟩

/-- A constant column: every window has zero variance. -/
def frameW4 : DataFrame := ⟨[("sales", [some 5, some 5, some 5])]⟩

/-- A concrete external date parser for the loading theorems: dates are
resolved through an association list, deliberately out of sorted order. -/
def parseW : String → Option Int :=
  fun s => [("a", (5 : Int)), ("b", 2), ("c", 9)].lookup s

/-- A concrete reader output whose date field is present. -/
def tableW : RawTable := ⟨["date", "v"], [["a", "1"], ["b", "2"], ["c", "3"]]⟩

/-- The frame `load_data parseW tableW "date"` produces: the index is the
parsed date column in row order (and is not sorted). -/
def loadedW : LoadedFrame := ⟨[5, 2, 9], ["v"], [["1"], ["2"], ["3"]]⟩

/-! ## Helper lemmas -/

/-- A column lookup on a header that does not contain the name fails with
`KeyError`. -/
theorem getColumn_of_not_mem (t : RawTable) (name : String)
    (h : name ∉ t.fields) : t.getColumn name = .error (.keyError name) := by
  have hidx : t.fields.findIdx? (· == name) = none := by
    rw [List.findIdx?_eq_none_iff]
    intro x hx
    simp only [beq_eq_false_iff_ne, ne_eq]
    rintro rfl
    exact h hx
  unfold RawTable.getColumn
  rw [hidx]

/-- Dropping the nulls of a list that contains one strictly shrinks it. -/
theorem length_filterMap_id_lt {l : List (Option ℚ)} (h : none ∈ l) :
    (l.filterMap id).length < l.length := by
  induction l with
  | nil => cases h
  | cons a t ih =>
    cases a with
    | none =>
      have : (t.filterMap id).length ≤ t.length := List.length_filterMap_le _ _
      simpa using Nat.lt_succ_of_le this
    | some x =>
      have ht : none ∈ t := by
        rcases List.mem_cons.mp h with h0 | h0
        · cases h0
        · exact h0
      simpa using Nat.succ_lt_succ (ih ht)

/-! ## Claims -/

/-- C10: `calculate_moving_average` with the window-size argument omitted
behaves exactly as if called with window size 7 (line 44 declares the
default `window_size: int = 7`). -/
theorem C10_default_window_is_seven (a : TimeSeriesAnalysis) (c : String) :
    a.calculate_moving_average_default c = a.calculate_moving_average c 7 := rfl

/-- C9: `calculate_moving_average` has no side effects: the receiver state
after a call is unchanged, and a second call with identical arguments on
that returned state yields an identical result. -/
theorem C9_moving_average_pure_and_idempotent (a : TimeSeriesAnalysis)
    (c : String) (w : Int) :
    (a.calculate_moving_average_run c w).2 = a ∧
    (a.calculate_moving_average_run c w).1 =
      ((a.calculate_moving_average_run c w).2.calculate_moving_average_run c w).1 :=
  ⟨rfl, rfl⟩

/-- C6: when the designated date field name is absent from the tabular
input, loading fails with the schema error (the `KeyError` of the date
column lookup), before any parsing happens. -/
theorem C6_missing_date_field_fails (parse : String → Option Int)
    (t : RawTable) (dc : String) (h : dc ∉ t.fields) :
    load_data parse t dc = .error (.keyError dc) := by
  unfold load_data
  rw [getColumn_of_not_mem t dc h]

/-- Witness for C6 at a concrete table missing the field `date`. -/
theorem C6_missing_date_field_fails_witness :
    ("date" ∉ (["v"] : List String)) ∧
    load_data parseW ⟨["v"], [["1"], ["2"]]⟩ "date" = .error (.keyError "date") :=
  ⟨by decide, C6_missing_date_field_fails parseW ⟨["v"], [["1"], ["2"]]⟩ "date" (by decide)⟩

/-- C4 counterexample: on a frame without the column `missing`,
`calculate_moving_average` raises `ValueError` through the precomputed
`column_list`, while `detect_seasonality` raises `KeyError` from the
direct data lookup — not the same error kind and not via the precomputed
set. -/
theorem C4_counterexample :
    (TimeSeriesAnalysis.make frameW4).calculate_moving_average "missing" 7 =
      .error (.valueError "Specified column missing does not exist in the data") ∧
    (TimeSeriesAnalysis.make frameW4).detect_seasonality "missing" =
      .error (.keyError "missing") ∧
    PyError.valueError "Specified column missing does not exist in the data" ≠
      PyError.keyError "missing" :=
  ⟨by decide, by decide, fun h => PyError.noConfusion h⟩

/-- C4 amended: on an unknown column both operations fail without any
partial result, but through different mechanisms and with different error
kinds: `calculate_moving_average` raises `ValueError` via the precomputed
`column_list`, while `detect_seasonality` raises the lookup `KeyError`
without consulting the precomputed set. -/
theorem C4_amended_unknown_column_error_kinds (a : TimeSeriesAnalysis)
    (c : String) (w : Int) (hc : c ∉ a.column_list)
    (hd : a.data.getSeries c = .error (.keyError c)) :
    a.calculate_moving_average c w =
      .error (.valueError ("Specified column " ++ c ++ " does not exist in the data")) ∧
    a.detect_seasonality c = .error (.keyError c) := by
  constructor
  · unfold TimeSeriesAnalysis.calculate_moving_average
    rw [if_neg hc]
  · unfold TimeSeriesAnalysis.detect_seasonality
    rw [hd]

/-- Witness for the amended C4 at the concrete frame `frameW4`. -/
theorem C4_amended_unknown_column_error_kinds_witness :
    ("missing" ∉ (TimeSeriesAnalysis.make frameW4).column_list) ∧
    (TimeSeriesAnalysis.make frameW4).calculate_moving_average "missing" 7 =
      .error (.valueError ("Specified column " ++ "missing" ++ " does not exist in the data")) ∧
    (TimeSeriesAnalysis.make frameW4).detect_seasonality "missing" =
      .error (.keyError "missing") :=
  ⟨by decide,
   (C4_amended_unknown_column_error_kinds (TimeSeriesAnalysis.make frameW4)
      "missing" 7 (by decide) (by decide)).1,
   (C4_amended_unknown_column_error_kinds (TimeSeriesAnalysis.make frameW4)
      "missing" 7 (by decide) (by decide)).2⟩

/-- C5 counterexample: with window size `0` (which is `≤ 0`) on an
existing column, `calculate_moving_average` does not fail at all — it
returns an all-null series. -/
theorem C5_counterexample :
    ("sales" ∈ (TimeSeriesAnalysis.make frameW4).column_list) ∧
    (TimeSeriesAnalysis.make frameW4).calculate_moving_average "sales" 0 =
      .ok [none, none, none] :=
  ⟨by decide, by decide⟩

/-- C5 amended: a strictly negative window size fails (with the
`ValueError` of the pandas window validation, since the method itself
performs no window check), while window size `0` does not fail: it
returns an all-null series. -/
theorem C5_amended_nonpositive_window (a : TimeSeriesAnalysis) (c : String)
    (xs : List (Option ℚ)) (w : Int)
    (hs : a.data.getSeries c = .ok xs) (hc : c ∈ a.column_list) (hw : w ≤ 0) :
    a.calculate_moving_average c w =
      if w < 0 then .error (.valueError "window must be an integer 0 or greater")
      else .ok (List.replicate xs.length none) := by
  have hcall : a.calculate_moving_average c w = rolling_mean xs w := by
    unfold TimeSeriesAnalysis.calculate_moving_average
    rw [if_pos hc, hs]
  rw [hcall]
  unfold rolling_mean
  by_cases h : w < 0
  · rw [if_pos h, if_pos h]
  · rw [if_neg h, if_neg h]
    have hw0 : w = 0 := le_antisymm hw (not_lt.mp h)
    subst hw0
    have hobs : ∀ i, windowObs xs i ((0 : Int)).toNat = [] := by
      intro i
      unfold windowObs windowSlice
      rw [show ((0 : Int)).toNat = 0 from rfl, Nat.sub_zero,
        List.drop_eq_nil_of_le (by rw [List.length_take]; exact Nat.min_le_left _ _)]
      rfl
    congr 1
    have : ∀ i ∈ List.range xs.length,
        (if ((0 : Int)).toNat ≤ (windowObs xs i ((0 : Int)).toNat).length ∧
            0 < (windowObs xs i ((0 : Int)).toNat).length then
          some ((windowObs xs i ((0 : Int)).toNat).sum /
            ((windowObs xs i ((0 : Int)).toNat).length : ℚ))
        else none) = (none : Option ℚ) := by
      intro i _
      rw [hobs i]
      simp
    rw [List.map_congr_left this, List.map_const', List.length_range]

/-- Witness for the amended C5: window `-1` fails on an existing column. -/
theorem C5_amended_nonpositive_window_witness :
    ((-1 : Int) ≤ 0) ∧
    (TimeSeriesAnalysis.make frameW4).calculate_moving_average "sales" (-1) =
      .error (.valueError "window must be an integer 0 or greater") := by
  refine ⟨by norm_num, ?_⟩
  have h := C5_amended_nonpositive_window (TimeSeriesAnalysis.make frameW4)
    "sales" [some 5, some 5, some 5] (-1) rfl (by decide) (by norm_num)
  rw [h, if_pos (by norm_num)]

/-- C2: for a window size `w ≥ 1` and a position `i ≥ w-1`, if any source
value among positions `i-w+1 … i` is null then the moving-average result
at position `i` is null — no partial-window averaging and no
interpolation happens (pandas counts non-null observations against
`min_periods = w`). -/
theorem C2_null_in_window_gives_null (a : TimeSeriesAnalysis) (c : String)
    (xs : List (Option ℚ)) (w : Int) (i j : Nat)
    (hs : a.data.getSeries c = .ok xs) (hc : c ∈ a.column_list)
    (hw1 : 1 ≤ w) (hwi : w.toNat ≤ i + 1) (hin : i < xs.length)
    (hj1 : i + 1 - w.toNat ≤ j) (hj2 : j ≤ i) (hnull : xs[j]? = some none) :
    ∀ r, a.calculate_moving_average c w = .ok r → r[i]? = some none := by
  intro r hr
  have hw0 : ¬ w < 0 := by omega
  have hcall : a.calculate_moving_average c w = rolling_mean xs w := by
    unfold TimeSeriesAnalysis.calculate_moving_average
    rw [if_pos hc, hs]
  rw [hcall] at hr
  unfold rolling_mean at hr
  rw [if_neg hw0] at hr
  have hrr := Except.ok.inj hr
  subst hrr
  rw [List.getElem?_map, List.getElem?_range hin, Option.map_some']
  have hmem : none ∈ windowSlice xs i w.toNat := by
    have hj : (windowSlice xs i w.toNat)[j - (i + 1 - w.toNat)]? = some none := by
      unfold windowSlice
      rw [List.getElem?_drop,
        show (i + 1 - w.toNat) + (j - (i + 1 - w.toNat)) = j by omega,
        List.getElem?_take_of_lt (by omega)]
      exact hnull
    exact List.getElem?_mem hj
  have hlt : (windowObs xs i w.toNat).length < w.toNat := by
    have h1 : (windowObs xs i w.toNat).length < (windowSlice xs i w.toNat).length :=
      length_filterMap_id_lt hmem
    have h2 : (windowSlice xs i w.toNat).length ≤ w.toNat := by
      unfold windowSlice
      rw [List.length_drop, List.length_take]
      omega
    omega
  rw [if_neg (by rintro ⟨h1, -⟩; omega)]

/-- Witness for C2: column `[1, null, 3]`, window 2, position 2 whose
window covers the null at position 1; the result at position 2 is null. -/
theorem C2_null_in_window_gives_null_witness :
    (([some 1, none, some 3] : List (Option ℚ))[1]? = some none) ∧
    (([none, none, none] : List (Option ℚ))[2]? = some none) :=
  ⟨by decide,
   C2_null_in_window_gives_null (TimeSeriesAnalysis.make frameW2) "col"
     [some 1, none, some 3] 2 2 1 rfl (by decide) (by decide) (by decide)
     (by decide) (by decide) (by decide) (by decide)
     [none, none, none] (by decide)⟩

/-- C1: on a column with no nulls of length `n` and a window `1 ≤ w ≤ n`,
the moving average is a sequence of length `n` whose entry at position `i`
is null when `i < w-1` and otherwise the arithmetic mean of the source
values at positions `i-w+1 … i`. -/
theorem C1_moving_average_of_complete_column (a : TimeSeriesAnalysis)
    (c : String) (xs : List ℚ) (w : Int)
    (hs : a.data.getSeries c = .ok (xs.map some))
    (hc : c ∈ a.column_list) (hw1 : 1 ≤ w) (hwn : w.toNat ≤ xs.length) :
    a.calculate_moving_average c w =
      .ok ((List.range xs.length).map (fun i =>
        if i + 1 < w.toNat then none
        else some ((((xs.take (i + 1)).drop (i + 1 - w.toNat)).sum) / (w.toNat : ℚ)))) := by
  have hw0 : ¬ w < 0 := by omega
  have hcall : a.calculate_moving_average c w = rolling_mean (xs.map some) w := by
    unfold TimeSeriesAnalysis.calculate_moving_average
    rw [if_pos hc, hs]
  rw [hcall]
  unfold rolling_mean
  rw [if_neg hw0, List.length_map]
  congr 1
  apply List.map_congr_left
  intro i hi
  rw [List.mem_range] at hi
  have hobs : windowObs (xs.map some) i w.toNat =
      (xs.take (i + 1)).drop (i + 1 - w.toNat) := by
    unfold windowObs windowSlice
    rw [← List.map_take, ← List.map_drop, List.filterMap_map]
    have : (id ∘ some : ℚ → Option ℚ) = some := rfl
    rw [this, List.filterMap_some]
  rw [hobs]
  by_cases hcase : i + 1 < w.toNat
  · have hlen : ((xs.take (i + 1)).drop (i + 1 - w.toNat)).length = i + 1 := by
      rw [List.length_drop, List.length_take]
      omega
    rw [if_pos hcase, if_neg (by rintro ⟨h1, -⟩; omega)]
  · have hlen : ((xs.take (i + 1)).drop (i + 1 - w.toNat)).length = w.toNat := by
      rw [List.length_drop, List.length_take]
      omega
    rw [if_neg hcase, if_pos ⟨by omega, by omega⟩, hlen]

/-- Witness for C1: the spec scenario — column `[1,2,3,4,5,6,7,8]`,
window 3, result `[null, null, 2, 3, 4, 5, 6, 7]`. -/
theorem C1_moving_average_of_complete_column_witness :
    ((1 : Int) ≤ 3) ∧ ((3 : Int).toNat ≤ ([1, 2, 3, 4, 5, 6, 7, 8] : List ℚ).length) ∧
    (TimeSeriesAnalysis.make frameW1).calculate_moving_average "col" 3 =
      .ok [none, none, some 2, some 3, some 4, some 5, some 6, some 7] := by
  refine ⟨by decide, by decide, ?_⟩
  rw [C1_moving_average_of_complete_column (TimeSeriesAnalysis.make frameW1)
    "col" [1, 2, 3, 4, 5, 6, 7, 8] 3 rfl (by decide) (by decide) (by decide)]
  rw [show (3 : Int).toNat = 3 from rfl]
  norm_num [List.range_succ]

/-- A successful elementwise date parse yields exactly the parses of the
input cells, in order. -/
theorem to_datetime_ok_spec (parse : String → Option Int) :
    ∀ (l : List String) (ds : List Int), to_datetime parse l = .ok ds →
      ds.length = l.length ∧
      ∀ i, i < l.length → parse (l.getD i "") = some (ds.getD i 0) := by
  intro l
  induction l with
  | nil =>
    intro ds h
    unfold to_datetime at h
    have := Except.ok.inj h
    subst this
    exact ⟨rfl, fun i hi => absurd hi (Nat.not_lt_zero i)⟩
  | cons s t ih =>
    intro ds h
    unfold to_datetime at h
    cases hp : parse s with
    | none => rw [hp] at h; cases h
    | some d =>
      rw [hp] at h
      cases hr : to_datetime parse t with
      | error e => rw [hr] at h; cases h
      | ok ds' =>
        rw [hr] at h
        have := Except.ok.inj h
        subst this
        obtain ⟨ihl, ihp⟩ := ih ds' hr
        refine ⟨by simp [ihl], ?_⟩
        intro i hi
        cases i with
        | zero => simpa using hp
        | succ i => simpa using ihp i (by simpa using hi)

/-- C8: when the date field is present, the produced index is exactly the
parsed date column in original row order — same length, positionwise
parse — with no sorting or deduplication. -/
theorem C8_index_is_parsed_dates_in_row_order (parse : String → Option Int)
    (t : RawTable) (dc : String) (cells : List String) (lf : LoadedFrame)
    (hcol : t.getColumn dc = .ok cells)
    (hload : load_data parse t dc = .ok lf) :
    lf.index.length = cells.length ∧
    ∀ i, i < cells.length → parse (cells.getD i "") = some (lf.index.getD i 0) := by
  have hload2 : (match to_datetime parse cells with
      | .error e => (.error e : Except PyError LoadedFrame)
      | .ok index =>
        match t.fields.findIdx? (· == dc) with
        | none => .error (.keyError dc)
        | some i =>
          .ok ⟨index, t.fields.eraseIdx i,
            t.rows.map (fun (r : List String) => r.eraseIdx i)⟩) = .ok lf := by
    have h := hload
    unfold load_data at h
    rw [hcol] at h
    exact h
  cases hdt : to_datetime parse cells with
  | error e => rw [hdt] at hload2; cases hload2
  | ok ds =>
    rw [hdt] at hload2
    cases hidx : t.fields.findIdx? (· == dc) with
    | none => rw [hidx] at hload2; cases hload2
    | some i =>
      rw [hidx] at hload2
      have := Except.ok.inj hload2
      subst this
      exact to_datetime_ok_spec parse cells ds hdt

/-- Witness for C8: three rows with dates parsing to `5);2);9` — the index
comes out as `[5, 2, 9]`, in row order and unsorted. -/
theorem C8_index_is_parsed_dates_in_row_order_witness :
    (load_data parseW tableW "date" = .ok loadedW) ∧
    loadedW.index.length = (["a", "b", "c"] : List String).length ∧
    parseW ((["a", "b", "c"] : List String).getD 0 "") = some (loadedW.index.getD 0 0) := by
  have h := C8_index_is_parsed_dates_in_row_order parseW tableW "date"
    ["a", "b", "c"] loadedW (by decide) (by decide)
  exact ⟨by decide, h.1, h.2 0 (by decide)⟩

theorem completePairs_append (x1 x2 y1 y2 : List (Option ℚ))
    (h : x1.length = y1.length) :
    completePairs (x1 ++ x2) (y1 ++ y2) = completePairs x1 y1 ++ completePairs x2 y2 := by
  unfold completePairs
  rw [List.zip_append h, List.filterMap_append]

theorem completePairs_replicate_none (d : List ℚ) :
    ∀ k, completePairs (d.map some) (List.replicate k (none : Option ℚ)) = [] := by
  induction d with
  | nil => intro k; simp [completePairs]
  | cons x t ih =>
    intro k
    cases k with
    | zero => simp [completePairs]
    | succ k =>
      have := ih k
      unfold completePairs at this ⊢
      simp only [List.map_cons, List.replicate_succ, List.zip_cons_cons,
        List.filterMap_cons, pairPick]
      exact this

theorem completePairs_map_some (xs : List ℚ) :
    ∀ ys : List ℚ, completePairs (xs.map some) (ys.map some) = xs.zip ys := by
  induction xs with
  | nil => intro ys; simp [completePairs]
  | cons x t ih =>
    intro ys
    cases ys with
    | nil => simp [completePairs]
    | cons y t' =>
      have := ih t'
      unfold completePairs at this ⊢
      simp only [List.map_cons, List.zip_cons_cons, List.filterMap_cons, pairPick]
      rw [this]

theorem zip_take_of_le {α β : Type} (l : List α) :
    ∀ (l' : List β) (k : Nat), l.length ≤ k → l.zip (l'.take k) = l.zip l' := by
  induction l with
  | nil => intro l' k _; simp
  | cons a t ih =>
    intro l' k h
    cases l' with
    | nil => simp
    | cons b t' =>
      cases k with
      | zero => simp at h
      | succ k =>
        simp only [List.take_succ_cons, List.zip_cons_cons]
        rw [ih t' k (by simpa using h)]

theorem completePairs_shift (d : List ℚ) (lag : Nat) :
    completePairs (d.map some) (shift lag (d.map some)) = (d.drop lag).zip d := by
  rcases le_or_lt d.length lag with h | h
  · have hs : shift lag (d.map some) = List.replicate d.length (none : Option ℚ) := by
      unfold shift
      rw [List.length_map, List.take_append_eq_append_take, List.length_replicate,
        List.take_replicate, Nat.min_eq_left h, Nat.sub_eq_zero_of_le h,
        List.take_zero, List.append_nil]
    rw [hs, completePairs_replicate_none, List.drop_eq_nil_of_le h]
    simp
  · have hs : shift lag (d.map some) =
        List.replicate lag (none : Option ℚ) ++ (d.take (d.length - lag)).map some := by
      unfold shift
      rw [List.length_map, List.take_append_eq_append_take, List.length_replicate,
        List.take_replicate, Nat.min_eq_right h.le, List.map_take]
    rw [hs]
    have hsplit : d.map some = (d.take lag).map (some : ℚ → Option ℚ) ++ (d.drop lag).map some := by
      rw [← List.map_append, List.take_append_drop]
    rw [hsplit]
    rw [completePairs_append _ _ _ _
      (by rw [List.length_map, List.length_take, List.length_replicate]; omega)]
    rw [completePairs_replicate_none (d.take lag) lag, List.nil_append,
      completePairs_map_some]
    rw [zip_take_of_le _ _ _ (by rw [List.length_drop])]

theorem mem_detect_report_iff (data : List ℚ) (label : String) (v : CorrStat)
    (lag : Nat) (hcand : (lag, label) ∈ candidate_lags)
    (huniq : ∀ p ∈ candidate_lags, p.2 = label → p.1 = lag) :
    ((label, v) ∈ candidate_lags.filterMap (fun p =>
      if p.1 * 2 < data.length then some (p.2, autocorr data p.1) else none)) ↔
    (2 * lag < data.length ∧ v = autocorr data lag) := by
  rw [List.mem_filterMap]
  constructor
  · rintro ⟨p, hp, hgp⟩
    by_cases hcond : p.1 * 2 < data.length
    · rw [if_pos hcond] at hgp
      have h2 := Option.some.inj hgp
      have ha : p.2 = label := congrArg Prod.fst h2
      have hb : autocorr data p.1 = v := congrArg Prod.snd h2
      have hplag : p.1 = lag := huniq p hp ha
      refine ⟨by omega, ?_⟩
      rw [← hb, hplag]
    · rw [if_neg hcond] at hgp
      cases hgp
  · rintro ⟨hcond, rfl⟩
    exact ⟨(lag, label), hcand, by rw [if_pos (by omega)]⟩

/-- C3: on an existing column, `detect_seasonality` first drops all null
entries, then reports exactly those candidate labels whose lag satisfies
`2 * lag < length` after the drop, each mapped to the Pearson statistics
of the post-drop sequence against itself shifted by the lag over the
overlapping range; a lag failing the length test is silently omitted, not
an error. -/
theorem C3_detect_seasonality_report (a : TimeSeriesAnalysis) (c : String)
    (series : List (Option ℚ)) (hs : a.data.getSeries c = .ok series) :
    ∀ R, a.detect_seasonality c = .ok R →
      ∀ lag label, (lag, label) ∈ candidate_lags →
        ∀ v : CorrStat, ((label, v) ∈ R ↔
          (2 * lag < (dropna series).length ∧
           v = corrStat (((dropna series).drop lag).zip (dropna series)))) := by
  intro R hR lag label hcand v
  have hdet : a.detect_seasonality c = .ok (candidate_lags.filterMap (fun p =>
      if p.1 * 2 < (dropna series).length then
        some (p.2, autocorr (dropna series) p.1) else none)) := by
    unfold TimeSeriesAnalysis.detect_seasonality
    rw [hs]
  rw [hdet] at hR
  have hR2 := Except.ok.inj hR
  subst hR2
  have huniq : ∀ p ∈ candidate_lags, p.2 = label → p.1 = lag := by
    have hc := hcand
    simp only [candidate_lags, List.mem_cons, List.not_mem_nil, or_false] at hc
    rcases hc with h | h | h <;>
      (injection h with h1 h2; subst h1; subst h2; decide)
  rw [mem_detect_report_iff (dropna series) label v lag hcand huniq]
  have hauto : autocorr (dropna series) lag =
      corrStat (((dropna series).drop lag).zip (dropna series)) := by
    unfold autocorr
    rw [completePairs_shift]
  rw [hauto]

/-- Witness for C3 at the spec scenario: a length-5 column keeps only the
`daily` entry; `weekly` (lag 7) is absent because `5 <= 14`. -/
theorem C3_detect_seasonality_report_witness :
    (("daily", corrStat ((([1, 2, 3, 4, 5] : List ℚ).drop 1).zip [1, 2, 3, 4, 5])) ∈
      [("daily", corrStat ((([1, 2, 3, 4, 5] : List ℚ).drop 1).zip [1, 2, 3, 4, 5]))]) ∧
    (("weekly", corrStat ((([1, 2, 3, 4, 5] : List ℚ).drop 7).zip [1, 2, 3, 4, 5])) ∉
      [("daily", corrStat ((([1, 2, 3, 4, 5] : List ℚ).drop 1).zip [1, 2, 3, 4, 5]))]) := by
  have hauto1 : autocorr ([1, 2, 3, 4, 5] : List ℚ) 1 =
      corrStat ((([1, 2, 3, 4, 5] : List ℚ).drop 1).zip [1, 2, 3, 4, 5]) := by
    unfold autocorr
    rw [completePairs_shift]
  have hdet : (TimeSeriesAnalysis.make frameW3).detect_seasonality "col" =
      .ok [("daily", corrStat ((([1, 2, 3, 4, 5] : List ℚ).drop 1).zip [1, 2, 3, 4, 5]))] := by
    rw [← hauto1]
    rfl
  have h := C3_detect_seasonality_report (TimeSeriesAnalysis.make frameW3) "col"
    (([1, 2, 3, 4, 5] : List ℚ).map some) rfl
    [("daily", corrStat ((([1, 2, 3, 4, 5] : List ℚ).drop 1).zip [1, 2, 3, 4, 5]))] hdet
  constructor
  · exact (h 1 "daily" (by decide) _).mpr ⟨by decide, rfl⟩
  · intro hmem
    have h2 := (h 7 "weekly" (by decide) _).mp hmem
    exact absurd h2.1 (by decide)

theorem sum_map_eq_sum_get (ps : List (ℚ × ℚ)) (f : ℚ × ℚ → ℚ) :
    (ps.map f).sum = ∑ i : Fin ps.length, f (ps.get i) := by
  conv_lhs => rw [← List.ofFn_get ps]
  rw [List.map_ofFn, List.sum_ofFn]
  rfl

theorem var_expr_nonneg {n : ℕ} (X : Fin n → ℚ) :
    0 ≤ (n : ℚ) * (∑ i, X i * X i) - (∑ i, X i) * (∑ i, X i) := by
  have cs := Finset.sum_mul_sq_le_sq_mul_sq Finset.univ X (fun _ => (1 : ℚ))
  simp only [mul_one, one_pow, Finset.sum_const, Finset.card_univ, Fintype.card_fin,
    nsmul_eq_mul] at cs
  have h2 : (∑ i, X i ^ 2) = ∑ i, X i * X i :=
    Finset.sum_congr rfl (fun i _ => by ring)
  nlinarith [cs]

theorem centered_cauchy {n : ℕ} (X Y : Fin n → ℚ) :
    ((n : ℚ) * (∑ i, X i * Y i) - (∑ i, X i) * (∑ i, Y i)) ^ 2 ≤
    ((n : ℚ) * (∑ i, X i * X i) - (∑ i, X i) * (∑ i, X i)) *
    ((n : ℚ) * (∑ i, Y i * Y i) - (∑ i, Y i) * (∑ i, Y i)) := by
  have expand : ∀ F G : Fin n → ℚ,
      (∑ i, (((n : ℚ) * F i - ∑ j, F j) * ((n : ℚ) * G i - ∑ j, G j))) =
      (n : ℚ) * ((n : ℚ) * (∑ i, F i * G i) - (∑ i, F i) * (∑ i, G i)) := by
    intro F G
    have h1 : ∀ i : Fin n, ((n : ℚ) * F i - ∑ j, F j) * ((n : ℚ) * G i - ∑ j, G j) =
        (n : ℚ) ^ 2 * (F i * G i) - ((n : ℚ) * (∑ j, G j)) * F i -
        ((n : ℚ) * (∑ j, F j)) * G i + (∑ j, F j) * (∑ j, G j) := fun i => by ring
    rw [Finset.sum_congr rfl (fun i _ => h1 i)]
    rw [Finset.sum_add_distrib, Finset.sum_sub_distrib, Finset.sum_sub_distrib,
      ← Finset.mul_sum, ← Finset.mul_sum, ← Finset.mul_sum,
      Finset.sum_const, Finset.card_univ, Fintype.card_fin, nsmul_eq_mul]
    ring
  have cs := Finset.sum_mul_sq_le_sq_mul_sq Finset.univ
    (fun i => (n : ℚ) * X i - ∑ j, X j) (fun i => (n : ℚ) * Y i - ∑ j, Y j)
  have hsqX : (∑ i, ((n : ℚ) * X i - ∑ j, X j) ^ 2) =
      ∑ i, (((n : ℚ) * X i - ∑ j, X j) * ((n : ℚ) * X i - ∑ j, X j)) :=
    Finset.sum_congr rfl (fun i _ => by ring)
  have hsqY : (∑ i, ((n : ℚ) * Y i - ∑ j, Y j) ^ 2) =
      ∑ i, (((n : ℚ) * Y i - ∑ j, Y j) * ((n : ℚ) * Y i - ∑ j, Y j)) :=
    Finset.sum_congr rfl (fun i _ => by ring)
  rw [hsqX, hsqY, expand X X, expand Y Y, expand X Y] at cs
  rcases Nat.eq_zero_or_pos n with h0 | hpos
  · subst h0
    simp
  · have hn : (0 : ℚ) < (n : ℚ) := by exact_mod_cast hpos
    have hkey : ((n : ℚ) * (n : ℚ)) *
        (((n : ℚ) * (∑ i, X i * Y i) - (∑ i, X i) * (∑ i, Y i)) ^ 2) ≤
        ((n : ℚ) * (n : ℚ)) *
        ((((n : ℚ) * (∑ i, X i * X i) - (∑ i, X i) * (∑ i, X i)) *
          ((n : ℚ) * (∑ i, Y i * Y i) - (∑ i, Y i) * (∑ i, Y i)))) := by
      calc ((n : ℚ) * (n : ℚ)) *
            (((n : ℚ) * (∑ i, X i * Y i) - (∑ i, X i) * (∑ i, Y i)) ^ 2)
          = ((n : ℚ) * ((n : ℚ) * (∑ i, X i * Y i) - (∑ i, X i) * (∑ i, Y i))) ^ 2 := by
            ring
        _ ≤ ((n : ℚ) * ((n : ℚ) * (∑ i, X i * X i) - (∑ i, X i) * (∑ i, X i))) *
            ((n : ℚ) * ((n : ℚ) * (∑ i, Y i * Y i) - (∑ i, Y i) * (∑ i, Y i))) := cs
        _ = _ := by ring
    exact le_of_mul_le_mul_left hkey (by positivity)

theorem corrStat_spec (ps : List (ℚ × ℚ)) :
    0 ≤ (corrStat ps).varx ∧ 0 ≤ (corrStat ps).vary ∧
    (corrStat ps).cov ^ 2 ≤ (corrStat ps).varx * (corrStat ps).vary := by
  have hx := sum_map_eq_sum_get ps Prod.fst
  have hy := sum_map_eq_sum_get ps Prod.snd
  have hxy := sum_map_eq_sum_get ps (fun p => p.1 * p.2)
  have hxx := sum_map_eq_sum_get ps (fun p => p.1 * p.1)
  have hyy := sum_map_eq_sum_get ps (fun p => p.2 * p.2)
  simp only [corrStat]
  rw [hx, hy, hxy, hxx, hyy]
  exact ⟨var_expr_nonneg (fun i => (ps.get i).1),
    var_expr_nonneg (fun i => (ps.get i).2),
    centered_cauchy (fun i => (ps.get i).1) (fun i => (ps.get i).2)⟩

theorem corrStat_val_bounds (s : CorrStat) (h0x : 0 ≤ s.varx) (h0y : 0 ≤ s.vary)
    (hcs : s.cov ^ 2 ≤ s.varx * s.vary) : -1 ≤ s.val ∧ s.val ≤ 1 := by
  unfold CorrStat.val
  have hC2 : ((s.cov : ℝ)) ^ 2 ≤ (s.varx : ℝ) * (s.vary : ℝ) := by exact_mod_cast hcs
  have habs : |(s.cov : ℝ)| ≤ Real.sqrt ((s.varx : ℝ) * (s.vary : ℝ)) := by
    rw [← Real.sqrt_sq_eq_abs]
    exact Real.sqrt_le_sqrt hC2
  rcases eq_or_lt_of_le (Real.sqrt_nonneg ((s.varx : ℝ) * (s.vary : ℝ))) with hz | hz
  · rw [← hz]
    norm_num
  · have h1 : |(s.cov : ℝ) / Real.sqrt ((s.varx : ℝ) * (s.vary : ℝ))| ≤ 1 := by
      rw [abs_div, abs_of_pos hz]
      exact (div_le_one hz).mpr habs
    exact abs_le.mp h1

/-- C7 counterexample: on the constant column `[5,5,5]` the daily
autocorrelation has zero variance, so the float the code stores in the
report is `NaN` (modelled as statistics with `varx = 0`), which does not
lie in `[-1, 1]`. -/
theorem C7_counterexample :
    (TimeSeriesAnalysis.make frameW4).detect_seasonality "sales" =
      .ok [("daily", (⟨0, 0, 0⟩ : CorrStat))] ∧
    ¬ (⟨0, 0, 0⟩ : CorrStat).IsDefined := by
  constructor
  · have hdet4 : (TimeSeriesAnalysis.make frameW4).detect_seasonality "sales" =
        .ok [("daily", autocorr ([5, 5, 5] : List ℚ) 1)] := rfl
    rw [hdet4]
    have hval : autocorr ([5, 5, 5] : List ℚ) 1 = (⟨0, 0, 0⟩ : CorrStat) := by
      unfold autocorr
      rw [show completePairs (([5, 5, 5] : List ℚ).map some)
          (shift 1 (([5, 5, 5] : List ℚ).map some)) =
          [((5 : ℚ), (5 : ℚ)), (5, 5)] from rfl]
      simp only [corrStat]
      norm_num
    rw [hval]
  · simp [CorrStat.IsDefined]

/-- C7 amended: every coefficient in a SeasonalityReport whose statistics
are defined (non-`NaN`: both variance factors nonzero) lies in `[-1, 1]`;
a zero-variance overlap instead produces an undefined (`NaN`) entry that
is still stored in the report. -/
theorem C7_amended_defined_coefficients_in_unit_interval
    (a : TimeSeriesAnalysis) (c : String) (R : List (String × CorrStat))
    (label : String) (s : CorrStat) (hR : a.detect_seasonality c = .ok R)
    (hmem : (label, s) ∈ R) (hdef : s.IsDefined) :
    -1 ≤ s.val ∧ s.val ≤ 1 := by
  have hcorr : ∃ ps : List (ℚ × ℚ), s = corrStat ps := by
    unfold TimeSeriesAnalysis.detect_seasonality at hR
    cases hser : a.data.getSeries c with
    | error e => rw [hser] at hR; cases hR
    | ok series =>
      rw [hser] at hR
      have hR2 := Except.ok.inj hR
      subst hR2
      obtain ⟨p, hp, hgp⟩ := List.mem_filterMap.mp hmem
      by_cases hcond : p.1 * 2 < (dropna series).length
      · rw [if_pos hcond] at hgp
        have h2 := Option.some.inj hgp
        exact ⟨completePairs ((dropna series).map some)
            (shift p.1 ((dropna series).map some)),
          (congrArg Prod.snd h2).symm⟩
      · rw [if_neg hcond] at hgp
        cases hgp
  obtain ⟨ps, rfl⟩ := hcorr
  obtain ⟨h1, h2, h3⟩ := corrStat_spec ps
  exact corrStat_val_bounds _ h1 h2 h3

/-- Witness for the amended C7: the daily coefficient of the column
`[1,2,3,4,5]` has defined statistics and its value lies in `[-1, 1]`. -/
theorem C7_amended_defined_coefficients_in_unit_interval_witness :
    ((corrStat ((([1, 2, 3, 4, 5] : List ℚ).drop 1).zip [1, 2, 3, 4, 5])).IsDefined) ∧
    (-1 ≤ (corrStat ((([1, 2, 3, 4, 5] : List ℚ).drop 1).zip [1, 2, 3, 4, 5])).val ∧
      (corrStat ((([1, 2, 3, 4, 5] : List ℚ).drop 1).zip [1, 2, 3, 4, 5])).val ≤ 1) := by
  have hzip : (([1, 2, 3, 4, 5] : List ℚ).drop 1).zip [1, 2, 3, 4, 5] =
      [((2 : ℚ), (1 : ℚ)), (3, 2), (4, 3), (5, 4)] := rfl
  have hdef : (corrStat ((([1, 2, 3, 4, 5] : List ℚ).drop 1).zip [1, 2, 3, 4, 5])).IsDefined := by
    rw [hzip]
    simp only [corrStat, CorrStat.IsDefined]
    norm_num
  have hauto1 : autocorr ([1, 2, 3, 4, 5] : List ℚ) 1 =
      corrStat ((([1, 2, 3, 4, 5] : List ℚ).drop 1).zip [1, 2, 3, 4, 5]) := by
    unfold autocorr
    rw [completePairs_shift]
  have hdet : (TimeSeriesAnalysis.make frameW3).detect_seasonality "col" =
      .ok [("daily", corrStat ((([1, 2, 3, 4, 5] : List ℚ).drop 1).zip [1, 2, 3, 4, 5]))] := by
    rw [← hauto1]
    rfl
  exact ⟨hdef, C7_amended_defined_coefficients_in_unit_interval
    (TimeSeriesAnalysis.make frameW3) "col"
    [("daily", corrStat ((([1, 2, 3, 4, 5] : List ℚ).drop 1).zip [1, 2, 3, 4, 5]))]
    "daily" _ hdet (List.mem_singleton.mpr rfl) hdef⟩

end TSUtil
